import Mathlib

/-!
Shallow embedding of two libsigrok hardware drivers, used to check the
natural-language specification against the code:

* `src/hardware/asix-sigma/api.c` (register-protocol logic analyzer driver),
* `src/hardware/scpi-dmm/api.c` and `protocol.h` (SCPI multimeter driver).

C functions are translated into executable Lean definitions; machine
integers become `Nat` with explicit `% 2^w` where truncation can matter.
Status codes (`SR_OK`, `SR_ERR_NA`, ...) from the public libsigrok header
are modelled as an inductive type, since the driver code only ever
compares and returns them.
-/

/-- Return/status codes of the libsigrok API (public header `libsigrok.h`).
Only the codes appearing in the two drivers are modelled. -/
inductive SrStatus where
  | SR_OK
  | SR_ERR
  | SR_ERR_ARG
  | SR_ERR_BUG
  | SR_ERR_NA
  | SR_ERR_DATA
  | SR_ERR_IO
  deriving DecidableEq, Repr

namespace AsixSigma

/-- Acquisition states of the ASIX SIGMA driver.  The enum lives in the
driver's `protocol.h` (not under `src/`); `api.c` uses exactly the three
states the spec names: Idle, Capturing (`SIGMA_CAPTURE`), Stopping. -/
inductive SigmaState where
  | SIGMA_IDLE
  | SIGMA_CAPTURE
  | SIGMA_STOPPING
  deriving DecidableEq, Repr

open SigmaState

/-- `dev_acquisition_stop` (api.c lines 519-540), acting on the acquisition
state together with the registration status of the receive callback.
The returned `Bool` is the new "receive callback registered" status:
when capturing, the state becomes `SIGMA_STOPPING` and the callback stays
as it was; otherwise the state becomes `SIGMA_IDLE` and
`sr_session_source_remove` deregisters the callback.  The C function
returns `SR_OK` unconditionally. -/
def dev_acquisition_stop (st : SigmaState) (registered : Bool) :
    (SigmaState × Bool) × SrStatus :=
  if st = SIGMA_CAPTURE then
    ((SIGMA_STOPPING, registered), SrStatus.SR_OK)
  else
    ((SIGMA_IDLE, false), SrStatus.SR_OK)

/-- `SR_MHZ(n)` from the libsigrok headers: n * 1000000. -/
def SR_MHZ (n : Nat) : Nat := n * 1000000

/-- LED select bit positions within the trigger-select byte.
Modelled from the spec: the positions come from the driver's `protocol.h`
register layout, which is not under `src/`; the spec only says a
dedicated LED indicator bit is enabled.  The values used are the ones of
the ASIX SIGMA hardware register layout (bits 6 and 7 of the
trigger-select byte). -/
def LEDSEL0 : Nat := 6

/-- See `LEDSEL0`. -/
def LEDSEL1 : Nat := 7

/-- The pin scan of `dev_acquisition_start` (api.c lines 437-441):
`for (triggerpin = 0; triggerpin < 8; triggerpin++) if (mask & (1 << triggerpin)) break;`
The loop variable ends at the first set bit among positions 0..7, or at 8
when none of the low eight bits is set. -/
def findTriggerPin (mask : Nat) : Nat :=
  ((List.range 8).find? (fun i => mask &&& (1 <<< i) != 0)).getD 8

/-- The trigger-select byte computed in the >= 100 MHz branch of
`dev_acquisition_start` (api.c lines 433-448):
`triggerselect = (1 << LEDSEL1) | (triggerpin & 0x7);`
then `if (devc->trigger.fallingmask) triggerselect |= 1 << 3;`. -/
def triggerselectFast (risingmask fallingmask : Nat) : Nat :=
  let triggerpin := findTriggerPin (risingmask ||| fallingmask)
  let base := (1 <<< LEDSEL1) ||| (triggerpin &&& 0x7)
  if fallingmask != 0 then base ||| (1 <<< 3) else base

/-- The `clockselect.fraction` field of `dev_acquisition_start`
(api.c lines 472-490).  For 100/200 MHz the initializer `1 - 1` stays;
otherwise `SR_MHZ(50) / devc->samplerate - 1` is computed in `uint64_t`
arithmetic (wrapping at 2^64) and stored into the `uint8_t` struct field
(truncation to 8 bits). -/
def clockFraction (samplerate : Nat) : Nat :=
  if samplerate = SR_MHZ 200 ∨ samplerate = SR_MHZ 100 then 0
  else ((SR_MHZ 50 / samplerate + (2 ^ 64 - 1)) % 2 ^ 64) % 2 ^ 8

/-- The `clockselect.disabled_channels` field of `dev_acquisition_start`
(api.c lines 474-490): `0x0000` default (all channels enabled), `0xf0ff`
at 200 MHz (4 channels kept), `0x00ff` at 100 MHz (8 channels kept). -/
def disabledChannels (samplerate : Nat) : Nat :=
  if samplerate = SR_MHZ 200 then 0xf0ff
  else if samplerate = SR_MHZ 100 then 0x00ff
  else 0x0000

/-- The `clockselect.async` field: set to literal 0 (api.c line 472). -/
def clockAsync : Nat := 0

/-- The serialized clock-select register image (api.c lines 491-496):
`clock_bytes[0] = async; clock_bytes[1] = fraction;
 clock_bytes[2] = disabled_channels & 0xff;
 clock_bytes[3] = disabled_channels >> 8;`
written with `sigma_write_register(WRITE_CLOCK_SELECT, ..., 4, ...)`. -/
def clockBytes (samplerate : Nat) : List Nat :=
  [ clockAsync,
    clockFraction samplerate,
    disabledChannels samplerate &&& 0xff,
    disabledChannels samplerate >>> 8 ]

/-- Number of channels a 16-bit disable mask keeps enabled (bits clear). -/
def enabledChannelCount (mask : Nat) : Nat :=
  (List.range 16).countP (fun i => ¬ mask.testBit i)

/-- The value written to the post-trigger register at acquisition start
(api.c lines 498-500): `(devc->capture_ratio * 255) / 100`, computed in
`uint64_t` arithmetic and passed to `sigma_set_register`, whose value
parameter is a `uint8_t` (truncation to 8 bits). -/
def postTriggerValue (captureRatio : Nat) : Nat :=
  ((captureRatio * 255) % 2 ^ 64 / 100) % 2 ^ 8

/-- The per-device mutable state of the asix-sigma driver (fields of
`struct dev_context` that `config_set` touches for the claims at hand). -/
structure DevContext where
  samplerate : Nat
  captureRatio : Nat
  deriving DecidableEq, Repr

/-- The `SR_CONF_CAPTURE_RATIO` branch of `config_set` (api.c lines
358-362): `devc->capture_ratio = g_variant_get_uint64(data);` and fall
through to `return SR_OK;` — there is no bounds check on the value. -/
def config_set_captureRatio (value : Nat) (devc : DevContext) :
    SrStatus × DevContext :=
  (SrStatus.SR_OK, { devc with captureRatio := value })

end AsixSigma

namespace ScpiDmm

/-!
Measured-quantity identifiers and flags from the public libsigrok header
(`enum sr_mq`, `enum sr_mqflag` in `libsigrok.h`, not under `src/`).
The driver only ever compares these values for equality and ORs flags
together, so the embedding keeps them as the header's numeric constants.
-/

def SR_MQ_VOLTAGE : Nat := 10000
def SR_MQ_CURRENT : Nat := 10001
def SR_MQ_RESISTANCE : Nat := 10002
def SR_MQ_CAPACITANCE : Nat := 10003
def SR_MQ_TEMPERATURE : Nat := 10004
def SR_MQ_FREQUENCY : Nat := 10005
def SR_MQ_CONTINUITY : Nat := 10007
def SR_MQ_TIME : Nat := 10015

def SR_MQFLAG_AC : Nat := 0x01
def SR_MQFLAG_DC : Nat := 0x02
def SR_MQFLAG_DIODE : Nat := 0x08
def SR_MQFLAG_FOUR_WIRE : Nat := 0x200000

/-- Logical command codes, `enum scpi_dmm_cmdcode` (protocol.h lines 35-54). -/
inductive CmdCode where
  | DMM_CMD_SETUP_REMOTE
  | DMM_CMD_SETUP_FUNC
  | DMM_CMD_QUERY_FUNC
  | DMM_CMD_START_ACQ
  | DMM_CMD_STOP_ACQ
  | DMM_CMD_QUERY_VALUE
  | DMM_CMD_QUERY_PREC
  | DMM_CMD_SETUP_LOCAL
  | DMM_CMD_QUERY_RANGE
  | DMM_CMD_QUERY_RANGE_AUTO
  | DMM_CMD_SETUP_RANGE
  | DMM_CMD_SETUP_RANGE_AUTO
  | DMM_CMD_QUERY_NPLC
  | DMM_CMD_SETUP_NPLC
  | DMM_CMD_SETUP_AVG_COUNT
  | DMM_CMD_QUERY_AVG_COUNT
  | DMM_CMD_SETUP_AVG
  | DMM_CMD_QUERY_AVG
  deriving DecidableEq, Repr

open CmdCode

/-- One entry of a vendor command-set table (`struct scpi_command`):
logical command code paired with the vendor's textual template.  The
`ALL_ZERO` terminator of the C arrays is the end of the Lean list. -/
structure ScpiCommand where
  command : CmdCode
  string : String
  deriving DecidableEq, Repr

/-- `cmdset_agilent` (api.c lines 54-63). -/
def cmdset_agilent : List ScpiCommand :=
  [ ⟨DMM_CMD_SETUP_REMOTE, "\n"⟩,
    ⟨DMM_CMD_SETUP_FUNC, "CONF:%s"⟩,
    ⟨DMM_CMD_QUERY_FUNC, "CONF?"⟩,
    ⟨DMM_CMD_START_ACQ, "MEAS"⟩,
    ⟨DMM_CMD_STOP_ACQ, "ABORT"⟩,
    ⟨DMM_CMD_QUERY_VALUE, "READ?"⟩,
    ⟨DMM_CMD_QUERY_PREC, "CONF?"⟩ ]

/-- `cmdset_hp` (api.c lines 85-94). -/
def cmdset_hp : List ScpiCommand :=
  [ ⟨DMM_CMD_SETUP_REMOTE, "\n"⟩,
    ⟨DMM_CMD_SETUP_FUNC, "CONF:%s"⟩,
    ⟨DMM_CMD_QUERY_FUNC, "CONF?"⟩,
    ⟨DMM_CMD_START_ACQ, "INIT"⟩,
    ⟨DMM_CMD_STOP_ACQ, "ABORT"⟩,
    ⟨DMM_CMD_QUERY_VALUE, "READ?"⟩,
    ⟨DMM_CMD_QUERY_PREC, "CONF?"⟩ ]

/-- `cmdset_gwinstek` (api.c lines 96-105). -/
def cmdset_gwinstek : List ScpiCommand :=
  [ ⟨DMM_CMD_SETUP_REMOTE, "SYST:REM"⟩,
    ⟨DMM_CMD_SETUP_LOCAL, "SYST:LOC"⟩,
    ⟨DMM_CMD_SETUP_FUNC, "CONF:%s"⟩,
    ⟨DMM_CMD_QUERY_FUNC, "CONF:STAT:FUNC?"⟩,
    ⟨DMM_CMD_START_ACQ, "*CLS;SYST:REM"⟩,
    ⟨DMM_CMD_QUERY_VALUE, "VAL1?"⟩,
    ⟨DMM_CMD_QUERY_PREC, "SENS:DET:RATE?"⟩ ]

/-- `cmdset_gwinstek_906x` (api.c lines 107-117). -/
def cmdset_gwinstek_906x : List ScpiCommand :=
  [ ⟨DMM_CMD_SETUP_REMOTE, "SYST:REM"⟩,
    ⟨DMM_CMD_SETUP_LOCAL, "SYST:LOC"⟩,
    ⟨DMM_CMD_SETUP_FUNC, "CONF:%s"⟩,
    ⟨DMM_CMD_QUERY_FUNC, "CONF?"⟩,
    ⟨DMM_CMD_START_ACQ, "INIT"⟩,
    ⟨DMM_CMD_STOP_ACQ, "ABORT"⟩,
    ⟨DMM_CMD_QUERY_VALUE, "VAL1?"⟩,
    ⟨DMM_CMD_QUERY_PREC, "SENS:DET:RATE?"⟩ ]

/-- `cmdset_owon` (api.c lines 119-126); note: no `DMM_CMD_STOP_ACQ`. -/
def cmdset_owon : List ScpiCommand :=
  [ ⟨DMM_CMD_SETUP_REMOTE, "SYST:REM"⟩,
    ⟨DMM_CMD_SETUP_LOCAL, "SYST:LOC"⟩,
    ⟨DMM_CMD_SETUP_FUNC, "CONF:%s"⟩,
    ⟨DMM_CMD_QUERY_FUNC, "FUNC?"⟩,
    ⟨DMM_CMD_QUERY_VALUE, "MEAS1?"⟩ ]

/-- `cmdset_keithley` (api.c lines 128-144); note: no `DMM_CMD_SETUP_LOCAL`. -/
def cmdset_keithley : List ScpiCommand :=
  [ ⟨DMM_CMD_SETUP_REMOTE, "\n"⟩,
    ⟨DMM_CMD_SETUP_FUNC, ":FUNC \"%s\""⟩,
    ⟨DMM_CMD_QUERY_FUNC, "FUNC?"⟩,
    ⟨DMM_CMD_QUERY_VALUE, "READ?"⟩,
    ⟨DMM_CMD_QUERY_RANGE, "%s:RANGE?"⟩,
    ⟨DMM_CMD_QUERY_RANGE_AUTO, "%s:RANGE:AUTO?"⟩,
    ⟨DMM_CMD_SETUP_RANGE, "%s:RANGE %s"⟩,
    ⟨DMM_CMD_SETUP_RANGE_AUTO, "%s:RANGE:AUTO 1"⟩,
    ⟨DMM_CMD_SETUP_NPLC, "%s:NPLC %2.4f"⟩,
    ⟨DMM_CMD_QUERY_NPLC, "%s:NPLC?"⟩,
    ⟨DMM_CMD_SETUP_AVG_COUNT, "%s:AVER:COUN %d"⟩,
    ⟨DMM_CMD_QUERY_AVG_COUNT, "%s:AVER:COUN?"⟩,
    ⟨DMM_CMD_SETUP_AVG, "%s:AVER %d"⟩,
    ⟨DMM_CMD_QUERY_AVG, "%s:AVER?"⟩ ]

/-- Modelled from the spec: `sr_scpi_cmd_get` lives in `src/scpi/scpi.c`,
which is not under `src/`.  Per the spec's command-resolution contract
("`get_command(code) -> template string | absent`"), it scans the table
in order and returns the first entry's template for the requested code,
or absence when the table omits the code. -/
def sr_scpi_cmd_get (cmdset : List ScpiCommand) (code : CmdCode) :
    Option String :=
  (cmdset.find? (fun c => c.command == code)).map (·.string)

/-- `NO_DFLT_PREC` (protocol.h line 63). -/
def NO_DFLT_PREC : Int := -99

/-- One entry of a measurement-quantity option table, `struct mqopt_item`
(protocol.h lines 56-62). -/
structure MqoptItem where
  mq : Nat
  mqflag : Nat
  scpi_func_setup : String
  scpi_func_query : String
  default_precision : Int
  deriving DecidableEq, Repr

/-- `mqopts_agilent_34405a` (api.c lines 146-157). -/
def mqopts_agilent_34405a : List MqoptItem :=
  [ ⟨SR_MQ_VOLTAGE, SR_MQFLAG_DC, "VOLT:DC", "VOLT ", NO_DFLT_PREC⟩,
    ⟨SR_MQ_VOLTAGE, SR_MQFLAG_AC, "VOLT:AC", "VOLT:AC ", NO_DFLT_PREC⟩,
    ⟨SR_MQ_CURRENT, SR_MQFLAG_DC, "CURR:DC", "CURR ", NO_DFLT_PREC⟩,
    ⟨SR_MQ_CURRENT, SR_MQFLAG_AC, "CURR:AC", "CURR:AC ", NO_DFLT_PREC⟩,
    ⟨SR_MQ_RESISTANCE, 0, "RES", "RES ", NO_DFLT_PREC⟩,
    ⟨SR_MQ_CONTINUITY, 0, "CONT", "CONT", -1⟩,
    ⟨SR_MQ_CAPACITANCE, 0, "CAP", "CAP ", NO_DFLT_PREC⟩,
    ⟨SR_MQ_VOLTAGE, SR_MQFLAG_DC ||| SR_MQFLAG_DIODE, "DIOD", "DIOD", -4⟩,
    ⟨SR_MQ_TEMPERATURE, 0, "TEMP", "TEMP ", NO_DFLT_PREC⟩,
    ⟨SR_MQ_FREQUENCY, 0, "FREQ", "FREQ ", NO_DFLT_PREC⟩ ]

/-- `mqopts_agilent_34401a` (api.c lines 159-170). -/
def mqopts_agilent_34401a : List MqoptItem :=
  [ ⟨SR_MQ_VOLTAGE, SR_MQFLAG_DC, "VOLT:DC", "VOLT ", NO_DFLT_PREC⟩,
    ⟨SR_MQ_VOLTAGE, SR_MQFLAG_AC, "VOLT:AC", "VOLT:AC ", NO_DFLT_PREC⟩,
    ⟨SR_MQ_CURRENT, SR_MQFLAG_DC, "CURR:DC", "CURR ", NO_DFLT_PREC⟩,
    ⟨SR_MQ_CURRENT, SR_MQFLAG_AC, "CURR:AC", "CURR:AC ", NO_DFLT_PREC⟩,
    ⟨SR_MQ_RESISTANCE, 0, "RES", "RES ", NO_DFLT_PREC⟩,
    ⟨SR_MQ_RESISTANCE, SR_MQFLAG_FOUR_WIRE, "FRES", "FRES ", NO_DFLT_PREC⟩,
    ⟨SR_MQ_CONTINUITY, 0, "CONT", "CONT", -1⟩,
    ⟨SR_MQ_VOLTAGE, SR_MQFLAG_DC ||| SR_MQFLAG_DIODE, "DIOD", "DIOD", -4⟩,
    ⟨SR_MQ_FREQUENCY, 0, "FREQ", "FREQ ", NO_DFLT_PREC⟩,
    ⟨SR_MQ_TIME, 0, "PER", "PER ", NO_DFLT_PREC⟩ ]

/-- `mqopts_gwinstek_gdm8200a` (api.c lines 172-187).  Note the repeated
(mq, mqflag) pairs: `CURR:DC` appears for wire numbers "03" and "05" (mA),
`CURR:AC` for "04" and "06" (mA), and `TEMP` for "09" (Celsius) and
"15" (Fahrenheit). -/
def mqopts_gwinstek_gdm8200a : List MqoptItem :=
  [ ⟨SR_MQ_VOLTAGE, SR_MQFLAG_DC, "VOLT:DC", "01", NO_DFLT_PREC⟩,
    ⟨SR_MQ_VOLTAGE, SR_MQFLAG_AC, "VOLT:AC", "02", NO_DFLT_PREC⟩,
    ⟨SR_MQ_CURRENT, SR_MQFLAG_DC, "CURR:DC", "03", NO_DFLT_PREC⟩,
    ⟨SR_MQ_CURRENT, SR_MQFLAG_AC, "CURR:AC", "04", NO_DFLT_PREC⟩,
    ⟨SR_MQ_CURRENT, SR_MQFLAG_DC, "CURR:DC", "05", NO_DFLT_PREC⟩,
    ⟨SR_MQ_CURRENT, SR_MQFLAG_AC, "CURR:AC", "06", NO_DFLT_PREC⟩,
    ⟨SR_MQ_RESISTANCE, 0, "RES", "07", NO_DFLT_PREC⟩,
    ⟨SR_MQ_RESISTANCE, SR_MQFLAG_FOUR_WIRE, "FRES", "16", NO_DFLT_PREC⟩,
    ⟨SR_MQ_CONTINUITY, 0, "CONT", "13", -1⟩,
    ⟨SR_MQ_VOLTAGE, SR_MQFLAG_DC ||| SR_MQFLAG_DIODE, "DIOD", "17", -4⟩,
    ⟨SR_MQ_TEMPERATURE, 0, "TEMP", "09", NO_DFLT_PREC⟩,
    ⟨SR_MQ_TEMPERATURE, 0, "TEMP", "15", NO_DFLT_PREC⟩,
    ⟨SR_MQ_FREQUENCY, 0, "FREQ", "08", NO_DFLT_PREC⟩,
    ⟨SR_MQ_TIME, 0, "PER", "14", NO_DFLT_PREC⟩ ]

/-- `mqopts_gwinstek_gdm906x` (api.c lines 189-202). -/
def mqopts_gwinstek_gdm906x : List MqoptItem :=
  [ ⟨SR_MQ_VOLTAGE, SR_MQFLAG_DC, "VOLT:DC", "VOLT ", NO_DFLT_PREC⟩,
    ⟨SR_MQ_VOLTAGE, SR_MQFLAG_AC, "VOLT:AC", "VOLT:AC", NO_DFLT_PREC⟩,
    ⟨SR_MQ_CURRENT, SR_MQFLAG_DC, "CURR:DC", "CURR ", NO_DFLT_PREC⟩,
    ⟨SR_MQ_CURRENT, SR_MQFLAG_AC, "CURR:AC", "CURR:AC", NO_DFLT_PREC⟩,
    ⟨SR_MQ_RESISTANCE, 0, "RES", "RES", NO_DFLT_PREC⟩,
    ⟨SR_MQ_RESISTANCE, SR_MQFLAG_FOUR_WIRE, "FRES", "FRES", NO_DFLT_PREC⟩,
    ⟨SR_MQ_CONTINUITY, 0, "CONT", "CONT", -1⟩,
    ⟨SR_MQ_VOLTAGE, SR_MQFLAG_DC ||| SR_MQFLAG_DIODE, "DIOD", "DIOD", -4⟩,
    ⟨SR_MQ_TEMPERATURE, 0, "TEMP", "TEMP", NO_DFLT_PREC⟩,
    ⟨SR_MQ_FREQUENCY, 0, "FREQ", "FREQ", NO_DFLT_PREC⟩,
    ⟨SR_MQ_TIME, 0, "PER", "PER", NO_DFLT_PREC⟩,
    ⟨SR_MQ_CAPACITANCE, 0, "CAP", "CAP", NO_DFLT_PREC⟩ ]

/-- `mqopts_owon_xdm2041` (api.c lines 204-216). -/
def mqopts_owon_xdm2041 : List MqoptItem :=
  [ ⟨SR_MQ_VOLTAGE, SR_MQFLAG_AC, "VOLT:AC", "VOLT AC", NO_DFLT_PREC⟩,
    ⟨SR_MQ_VOLTAGE, SR_MQFLAG_DC, "VOLT:DC", "VOLT", NO_DFLT_PREC⟩,
    ⟨SR_MQ_CURRENT, SR_MQFLAG_AC, "CURR:AC", "CURR AC", NO_DFLT_PREC⟩,
    ⟨SR_MQ_CURRENT, SR_MQFLAG_DC, "CURR:DC", "CURR", NO_DFLT_PREC⟩,
    ⟨SR_MQ_RESISTANCE, 0, "RES", "RES", NO_DFLT_PREC⟩,
    ⟨SR_MQ_RESISTANCE, SR_MQFLAG_FOUR_WIRE, "FRES", "FRES", NO_DFLT_PREC⟩,
    ⟨SR_MQ_CONTINUITY, 0, "CONT", "CONT", -1⟩,
    ⟨SR_MQ_VOLTAGE, SR_MQFLAG_DC ||| SR_MQFLAG_DIODE, "DIOD", "DIOD", -4⟩,
    ⟨SR_MQ_TEMPERATURE, 0, "TEMP", "TEMP", NO_DFLT_PREC⟩,
    ⟨SR_MQ_FREQUENCY, 0, "FREQ", "FREQ", NO_DFLT_PREC⟩,
    ⟨SR_MQ_CAPACITANCE, 0, "CAP", "CAP", NO_DFLT_PREC⟩ ]

/-- `mqopts_keithley_dmm6500` (api.c lines 218-231). -/
def mqopts_keithley_dmm6500 : List MqoptItem :=
  [ ⟨SR_MQ_VOLTAGE, SR_MQFLAG_DC, "VOLT:DC", "VOLT:DC", NO_DFLT_PREC⟩,
    ⟨SR_MQ_VOLTAGE, SR_MQFLAG_AC, "VOLT:AC", "VOLT:AC", NO_DFLT_PREC⟩,
    ⟨SR_MQ_CURRENT, SR_MQFLAG_DC, "CURR:DC", "CURR:DC", NO_DFLT_PREC⟩,
    ⟨SR_MQ_CURRENT, SR_MQFLAG_AC, "CURR:AC", "CURR:AC", NO_DFLT_PREC⟩,
    ⟨SR_MQ_RESISTANCE, 0, "RES", "RES", NO_DFLT_PREC⟩,
    ⟨SR_MQ_RESISTANCE, SR_MQFLAG_FOUR_WIRE, "FRES", "FRES", NO_DFLT_PREC⟩,
    ⟨SR_MQ_CONTINUITY, 0, "CONT", "CONT", -1⟩,
    ⟨SR_MQ_VOLTAGE, SR_MQFLAG_DC ||| SR_MQFLAG_DIODE, "DIOD", "DIOD", -4⟩,
    ⟨SR_MQ_TEMPERATURE, 0, "TEMP", "TEMP", NO_DFLT_PREC⟩,
    ⟨SR_MQ_FREQUENCY, 0, "FREQ", "FREQ", NO_DFLT_PREC⟩,
    ⟨SR_MQ_TIME, 0, "PER", "PER", NO_DFLT_PREC⟩,
    ⟨SR_MQ_CAPACITANCE, 0, "CAP", "CAP", NO_DFLT_PREC⟩ ]

end ScpiDmm

namespace ScpiDmm

open CmdCode

/-- One entry of a range option table, `struct scpi_dmm_rangeopts`
(protocol.h lines 65-70): the vendor's wire-level token (`scpi_range`,
empty for fixed ranges) and the human-readable label (`range_str`). -/
structure RangeOpt where
  mq : Nat
  mqflag : Nat
  scpi_range : String
  range_str : String
  deriving DecidableEq, Repr

/-- `rangeopts_keithley_dmm6500` (api.c lines 233-304). -/
def rangeopts_keithley_dmm6500 : List RangeOpt :=
  [ ⟨SR_MQ_VOLTAGE, SR_MQFLAG_DC, "AUTO", "Auto"⟩,
    ⟨SR_MQ_VOLTAGE, SR_MQFLAG_DC, "0.1", "100mV"⟩,
    ⟨SR_MQ_VOLTAGE, SR_MQFLAG_DC, "1", "1V"⟩,
    ⟨SR_MQ_VOLTAGE, SR_MQFLAG_DC, "10", "10V"⟩,
    ⟨SR_MQ_VOLTAGE, SR_MQFLAG_DC, "100", "100V"⟩,
    ⟨SR_MQ_VOLTAGE, SR_MQFLAG_DC, "1000", "1000V"⟩,
    ⟨SR_MQ_VOLTAGE, SR_MQFLAG_AC, "AUTO", "Auto"⟩,
    ⟨SR_MQ_VOLTAGE, SR_MQFLAG_AC, "0.1", "100mV"⟩,
    ⟨SR_MQ_VOLTAGE, SR_MQFLAG_AC, "1", "1V"⟩,
    ⟨SR_MQ_VOLTAGE, SR_MQFLAG_AC, "10", "10V"⟩,
    ⟨SR_MQ_VOLTAGE, SR_MQFLAG_AC, "100", "100V"⟩,
    ⟨SR_MQ_VOLTAGE, SR_MQFLAG_AC, "750", "750V"⟩,
    ⟨SR_MQ_CURRENT, SR_MQFLAG_DC, "AUTO", "Auto"⟩,
    ⟨SR_MQ_CURRENT, SR_MQFLAG_DC, "1E-05", "10uA"⟩,
    ⟨SR_MQ_CURRENT, SR_MQFLAG_DC, "0.0001", "100uA"⟩,
    ⟨SR_MQ_CURRENT, SR_MQFLAG_DC, "0.001", "1mA"⟩,
    ⟨SR_MQ_CURRENT, SR_MQFLAG_DC, "0.01", "10mA"⟩,
    ⟨SR_MQ_CURRENT, SR_MQFLAG_DC, "0.1", "100mA"⟩,
    ⟨SR_MQ_CURRENT, SR_MQFLAG_DC, "1", "1A"⟩,
    ⟨SR_MQ_CURRENT, SR_MQFLAG_DC, "3", "3A"⟩,
    ⟨SR_MQ_CURRENT, SR_MQFLAG_DC, "10", "10A"⟩,
    ⟨SR_MQ_CURRENT, SR_MQFLAG_AC, "AUTO", "Auto"⟩,
    ⟨SR_MQ_CURRENT, SR_MQFLAG_AC, "0.001", "1mA"⟩,
    ⟨SR_MQ_CURRENT, SR_MQFLAG_AC, "0.01", "10mA"⟩,
    ⟨SR_MQ_CURRENT, SR_MQFLAG_AC, "0.1", "100mA"⟩,
    ⟨SR_MQ_CURRENT, SR_MQFLAG_AC, "1", "1A"⟩,
    ⟨SR_MQ_CURRENT, SR_MQFLAG_AC, "3", "3A"⟩,
    ⟨SR_MQ_RESISTANCE, 0, "AUTO", "Auto"⟩,
    ⟨SR_MQ_RESISTANCE, 0, "10", "10"⟩,
    ⟨SR_MQ_RESISTANCE, 0, "100", "100"⟩,
    ⟨SR_MQ_RESISTANCE, 0, "1000", "1k"⟩,
    ⟨SR_MQ_RESISTANCE, 0, "10000", "10k"⟩,
    ⟨SR_MQ_RESISTANCE, 0, "100000", "100k"⟩,
    ⟨SR_MQ_RESISTANCE, 0, "1E+06", "1M"⟩,
    ⟨SR_MQ_RESISTANCE, 0, "1E+07", "10M"⟩,
    ⟨SR_MQ_RESISTANCE, 0, "1E+08", "100M"⟩,
    ⟨SR_MQ_RESISTANCE, SR_MQFLAG_FOUR_WIRE, "AUTO", "Auto"⟩,
    ⟨SR_MQ_RESISTANCE, SR_MQFLAG_FOUR_WIRE, "1", "1"⟩,
    ⟨SR_MQ_RESISTANCE, SR_MQFLAG_FOUR_WIRE, "10", "10"⟩,
    ⟨SR_MQ_RESISTANCE, SR_MQFLAG_FOUR_WIRE, "100", "100"⟩,
    ⟨SR_MQ_RESISTANCE, SR_MQFLAG_FOUR_WIRE, "1000", "1k"⟩,
    ⟨SR_MQ_RESISTANCE, SR_MQFLAG_FOUR_WIRE, "10000", "10k"⟩,
    ⟨SR_MQ_RESISTANCE, SR_MQFLAG_FOUR_WIRE, "100000", "100k"⟩,
    ⟨SR_MQ_RESISTANCE, SR_MQFLAG_FOUR_WIRE, "1E+06", "1M"⟩,
    ⟨SR_MQ_RESISTANCE, SR_MQFLAG_FOUR_WIRE, "1E+07", "10M"⟩,
    ⟨SR_MQ_RESISTANCE, SR_MQFLAG_FOUR_WIRE, "1E+08", "100M"⟩,
    ⟨SR_MQ_VOLTAGE, SR_MQFLAG_DC ||| SR_MQFLAG_DIODE, "", "10V"⟩,
    ⟨SR_MQ_CAPACITANCE, 0, "AUTO", "Auto"⟩,
    ⟨SR_MQ_CAPACITANCE, 0, "1E-09", "1nF"⟩,
    ⟨SR_MQ_CAPACITANCE, 0, "1E-08", "10nF"⟩,
    ⟨SR_MQ_CAPACITANCE, 0, "1E-07", "100nF"⟩,
    ⟨SR_MQ_CAPACITANCE, 0, "1E-06", "1uF"⟩,
    ⟨SR_MQ_CAPACITANCE, 0, "1E-05", "10uF"⟩,
    ⟨SR_MQ_CAPACITANCE, 0, "0.0001", "100uF"⟩,
    ⟨SR_MQ_CONTINUITY, 0, "", "1k"⟩,
    ⟨SR_MQ_TEMPERATURE, 0, "", "Auto"⟩,
    ⟨SR_MQ_FREQUENCY, 0, "", "Auto"⟩,
    ⟨SR_MQ_TIME, 0, "", "Auto"⟩ ]

/-- One entry of an NPLC bounds table, `struct scpi_dmm_nplcopts`
(protocol.h lines 72-77).  The C `float` bounds are modelled as exact
rationals; the driver only compares them against the requested value. -/
structure NplcOpt where
  mq : Nat
  mqflag : Nat
  nplc_min : ℚ
  nplc_max : ℚ
  deriving DecidableEq, Repr

/-- `nplcopts_keithley_dmm6500` (api.c lines 306-312). -/
def nplcopts_keithley_dmm6500 : List NplcOpt :=
  [ ⟨SR_MQ_VOLTAGE, SR_MQFLAG_DC, 5 / 10000, 12⟩,
    ⟨SR_MQ_CURRENT, SR_MQFLAG_DC, 5 / 10000, 12⟩,
    ⟨SR_MQ_RESISTANCE, 0, 5 / 10000, 12⟩,
    ⟨SR_MQ_RESISTANCE, SR_MQFLAG_FOUR_WIRE, 5 / 10000, 12⟩,
    ⟨SR_MQ_VOLTAGE, SR_MQFLAG_DC ||| SR_MQFLAG_DIODE, 5 / 10000, 12⟩ ]

/-- The measurement-routine function pointers of `struct scpi_dmm_model`,
modelled as tags (the routines live in protocol.c, not under `src/`). -/
inductive GetMeasRoutine where
  | scpi_dmm_get_meas_agilent
  | scpi_dmm_get_meas_gwinstek
  | scpi_dmm_get_meas_keithley
  deriving DecidableEq, Repr

/-- `struct scpi_dmm_model` (protocol.h lines 79-98).  Array/size field
pairs become lists; absent tables (`0, 0` in the C initializers) become
empty lists.  `read_timeout_us` is in microseconds; `infinity_limit` is
a C float modelled as a rational. -/
structure ScpiDmmModel where
  vendor : String
  model : String
  num_channels : Nat
  digits : Int
  cmdset : List ScpiCommand
  mqopts : List MqoptItem
  get_measurement : GetMeasRoutine
  devoptsTag : String
  read_timeout_us : Nat
  infinity_limit : ℚ
  rangeopts : List RangeOpt
  nplcopts : List NplcOpt
  avg_min : Nat
  avg_max : Nat
  deriving DecidableEq, Repr

open GetMeasRoutine

/-- `models` (api.c lines 314-397).  The `devopts` array pointers are kept
as tags naming the C array, since their contents do not bear on the
claims about this table. -/
def models : List ScpiDmmModel :=
  [ ⟨"Agilent", "34405A", 1, 5, cmdset_agilent, mqopts_agilent_34405a,
      scpi_dmm_get_meas_agilent, "devopts_generic", 0, 0, [], [], 0, 0⟩,
    ⟨"Agilent", "34410A", 1, 6, cmdset_hp, mqopts_agilent_34405a,
      scpi_dmm_get_meas_agilent, "devopts_generic", 0, 0, [], [], 0, 0⟩,
    ⟨"GW", "GDM8251A", 1, 6, cmdset_gwinstek, mqopts_gwinstek_gdm8200a,
      scpi_dmm_get_meas_gwinstek, "devopts_generic",
      1000 * 2500, 0, [], [], 0, 0⟩,
    ⟨"GW", "GDM8255A", 1, 6, cmdset_gwinstek, mqopts_gwinstek_gdm8200a,
      scpi_dmm_get_meas_gwinstek, "devopts_generic",
      1000 * 2500, 0, [], [], 0, 0⟩,
    ⟨"GWInstek", "GDM9060", 1, 6, cmdset_gwinstek_906x, mqopts_gwinstek_gdm906x,
      scpi_dmm_get_meas_agilent, "devopts_generic", 0, 0, [], [], 0, 0⟩,
    ⟨"GWInstek", "GDM9061", 1, 6, cmdset_gwinstek_906x, mqopts_gwinstek_gdm906x,
      scpi_dmm_get_meas_agilent, "devopts_generic", 0, 0, [], [], 0, 0⟩,
    ⟨"HP", "34401A", 1, 6, cmdset_hp, mqopts_agilent_34401a,
      scpi_dmm_get_meas_agilent, "devopts_generic",
      1000 * 1500, 0, [], [], 0, 0⟩,
    ⟨"KEITHLEY INSTRUMENTS INC.", "34401A", 1, 6, cmdset_hp,
      mqopts_agilent_34401a, scpi_dmm_get_meas_agilent, "devopts_generic",
      1000 * 1500, 0, [], [], 0, 0⟩,
    ⟨"KEITHLEY INSTRUMENTS", "MODEL DMM6500", 1, 5, cmdset_keithley,
      mqopts_keithley_dmm6500, scpi_dmm_get_meas_keithley, "devopts_keithley",
      0, 0, rangeopts_keithley_dmm6500, nplcopts_keithley_dmm6500, 1, 100⟩,
    ⟨"Keysight", "34465A", 1, 5, cmdset_agilent, mqopts_agilent_34405a,
      scpi_dmm_get_meas_agilent, "devopts_generic", 0, 0, [], [], 0, 0⟩,
    ⟨"OWON", "XDM2041", 1, 5, cmdset_owon, mqopts_owon_xdm2041,
      scpi_dmm_get_meas_gwinstek, "devopts_generic",
      0, 1000000000, [], [], 0, 0⟩ ]

/-- Pairwise uniqueness of the (mq, mqflag) pairs in an mqopt table. -/
def mqPairsUnique (tbl : List MqoptItem) : Bool :=
  (tbl.map (fun o => (o.mq, o.mqflag))).Pairwise (· ≠ ·)

/-- The `SR_CONF_RANGE` branch of `config_get` (api.c lines 589-621),
for the current quantity pair `(mq, mqflag)` as reported by
`scpi_dmm_get_mq`, and for a device whose range query replies with the
raw wire value `range_query` (the auto/discrete device queries
`scpi_dmm_get_range_auto` / `scpi_dmm_get_range` live in protocol.c and
are taken as succeeding with that reply).

The C function first scans for a fixed range (empty `scpi_range` token)
and returns its label; otherwise it scans for an entry whose token equals
the wire reply, `break`ing at the first hit.  The local `range_str` is
declared without an initializer and the function returns `SR_OK` with
whatever `range_str` holds even when the second scan matched no entry;
`none` in the result models that uninitialized label. -/
def config_get_range (tbl : List RangeOpt) (mq mqflag : Nat)
    (range_query : String) : SrStatus × Option String :=
  match tbl.find? (fun o =>
      o.mq == mq && o.mqflag == mqflag && o.scpi_range == "") with
  | some o => (SrStatus.SR_OK, some o.range_str)
  | none =>
    let found := tbl.find? (fun o =>
      o.mq == mq && o.mqflag == mqflag && o.scpi_range == range_query)
    (SrStatus.SR_OK, found.map (·.range_str))

/-- First entry of an NPLC bounds table matching a quantity pair
(the scan order of the loops at api.c lines 626-633 and 708-717). -/
def nplcLookup (tbl : List NplcOpt) (mq mqflag : Nat) : Option NplcOpt :=
  tbl.find? (fun o => o.mq == mq && o.mqflag == mqflag)

/-- The `SR_CONF_ADC_POWERLINE_CYCLES` branch of `config_set` (api.c
lines 703-718), for the current quantity pair `(mq, mqflag)` as reported
by `scpi_dmm_get_mq` and a requested value `nplc` (a C float, modelled
as a rational).  On the first table entry matching the pair: inside
bounds delegates to `scpi_dmm_set_nplc` (protocol.c; its transport send
is modelled as succeeding, `SR_OK`), outside bounds returns
`SR_ERR_DATA`.  When no entry matches, returns `SR_ERR_NA`. -/
def config_set_nplc (tbl : List NplcOpt) (mq mqflag : Nat) (nplc : ℚ) :
    SrStatus :=
  match nplcLookup tbl mq mqflag with
  | some o =>
    if o.nplc_min ≤ nplc ∧ o.nplc_max ≥ nplc then SrStatus.SR_OK
    else SrStatus.SR_ERR_DATA
  | none => SrStatus.SR_ERR_NA

/-- `dev_acquisition_stop` (api.c lines 852-874): looks up
`DMM_CMD_STOP_ACQ`; only when the command is present and non-empty is it
sent (its send status explicitly discarded with `(void)`); then the
receive source is removed, the end-of-stream marker sent, the cached
precision released, and `SR_OK` returned unconditionally.  The result
lists the command strings sent to the device. -/
def dev_acquisition_stop (cmdset : List ScpiCommand) :
    List String × SrStatus :=
  let sent :=
    match sr_scpi_cmd_get cmdset DMM_CMD_STOP_ACQ with
    | some c => if c ≠ "" then [c] else []
    | none => []
  (sent, SrStatus.SR_OK)

/-- The `DMM_CMD_SETUP_LOCAL` step shared by `probe_device` (api.c lines
492-500) and `dev_close` (api.c lines 540-548):
`command = sr_scpi_cmd_get(devc->cmdset, DMM_CMD_SETUP_LOCAL);
 if (command && *command) { ... sr_scpi_send(scpi, command); }`.
Returns the command strings this step sends. -/
def setup_local_sends (cmdset : List ScpiCommand) : List String :=
  match sr_scpi_cmd_get cmdset DMM_CMD_SETUP_LOCAL with
  | some c => if c ≠ "" then [c] else []
  | none => []

/-- `dev_close` (api.c lines 525-551) for an active device with a live
SCPI connection: sends the setup-local step and returns the status of
`sr_scpi_close` (transport close, modelled as succeeding). -/
def dev_close (cmdset : List ScpiCommand) : List String × SrStatus :=
  (setup_local_sends cmdset, SrStatus.SR_OK)

end ScpiDmm

/-!  ## Theorems about the claims -/

section Helpers

/-- The loop condition `mask & (1 << i)` of the pin scan, as a bit test. -/
theorem and_shift_ne_zero (m i : Nat) :
    (m &&& (1 <<< i) != 0) = m.testBit i := by
  rw [Nat.one_shiftLeft, Nat.and_two_pow]
  cases h : m.testBit i
  · simp
  · simp only [Bool.toNat_true, one_mul, bne_iff_ne, ne_eq]
    exact Nat.pos_iff_ne_zero.mp (Nat.two_pow_pos i)

/-- The pin scan returns the position of the lowest set bit when that
position is below 8. -/
theorem findTriggerPin_lowest (mask k : Nat) (hk : k < 8)
    (hbit : mask.testBit k = true)
    (hlow : ∀ j ∈ List.range k, mask.testBit j = false) :
    AsixSigma.findTriggerPin mask = k := by
  have hp : (fun i => mask &&& (1 <<< i) != 0) = fun i => mask.testBit i :=
    funext fun i => and_shift_ne_zero mask i
  unfold AsixSigma.findTriggerPin
  rw [hp, show List.range 8 = [0, 1, 2, 3, 4, 5, 6, 7] from rfl]
  simp only [List.mem_range] at hlow
  interval_cases k <;>
    simp_all +decide only [List.find?, Option.getD_some]

end Helpers

/-- C1: `dev_acquisition_stop` of the asix-sigma driver, called while the
state is `SIGMA_CAPTURE`, moves the state to `SIGMA_STOPPING` (not idle)
and leaves the receive callback's registration untouched; called in any
other state it sets `SIGMA_IDLE` and deregisters the callback, so a stop
while already idle is a no-op apart from the defensive deregistration.
In every case the function reports `SR_OK`. -/
theorem C1_two_phase_stop :
    ∀ registered : Bool,
      AsixSigma.dev_acquisition_stop AsixSigma.SigmaState.SIGMA_CAPTURE registered
        = ((AsixSigma.SigmaState.SIGMA_STOPPING, registered), SrStatus.SR_OK) ∧
      AsixSigma.dev_acquisition_stop AsixSigma.SigmaState.SIGMA_IDLE registered
        = ((AsixSigma.SigmaState.SIGMA_IDLE, false), SrStatus.SR_OK) ∧
      AsixSigma.dev_acquisition_stop AsixSigma.SigmaState.SIGMA_STOPPING registered
        = ((AsixSigma.SigmaState.SIGMA_IDLE, false), SrStatus.SR_OK) := by
  decide

/-- C3 counterexample: a trigger specification whose combined mask has its
lowest set bit at channel 8 (mask 0x100) is encoded with trigger pin 0,
not channel 8 — the trigger-select byte is identical to the one for a
channel-0 trigger, so the claim's "encodes channel k as the single
trigger pin" fails at k = 8. -/
theorem C3_counterexample :
    (0x100 : Nat).testBit 8 = true ∧
    (∀ j ∈ List.range 8, (0x100 : Nat).testBit j = false) ∧
    AsixSigma.triggerselectFast 0x100 0 &&& 0x7 = 0 ∧
    AsixSigma.triggerselectFast 0x100 0 = AsixSigma.triggerselectFast 0x1 0 := by
  decide

/-- C3 amended: at >= 100 MHz, for every trigger specification whose
combined rising-or-falling mask has its lowest set bit at channel k with
k < 8, the trigger-select byte encodes channel k in its pin field (bits
0..2) regardless of which other bits are set; the falling-edge flag (bit
3) is set exactly when the falling mask is non-zero, and the LEDSEL1
indicator bit is set.  (When the low eight bits of the combined mask are
all zero, the scan runs off the end and the pin field is 0, as the
counterexample shows.) -/
theorem C3_amended_trigger_select (rising falling k : Nat) (hk : k < 8)
    (hbit : (rising ||| falling).testBit k = true)
    (hlow : ∀ j ∈ List.range k, (rising ||| falling).testBit j = false) :
    AsixSigma.triggerselectFast rising falling &&& 0x7 = k ∧
    (AsixSigma.triggerselectFast rising falling).testBit 3 = (falling != 0) ∧
    (AsixSigma.triggerselectFast rising falling).testBit AsixSigma.LEDSEL1 = true := by
  have hpin := findTriggerPin_lowest (rising ||| falling) k hk hbit hlow
  simp only [AsixSigma.triggerselectFast, hpin]
  by_cases hf : falling = 0
  · subst hf
    interval_cases k <;> decide
  · simp only [bne_iff_ne.mpr hf]
    interval_cases k <;> decide

/-- C3 witness: rising mask 0b110, falling mask 0b100 — lowest set bit of
the combined mask at channel 1. -/
theorem C3_amended_trigger_select_witness :
    AsixSigma.triggerselectFast 6 4 &&& 0x7 = 1 ∧
    (AsixSigma.triggerselectFast 6 4).testBit 3 = ((4 : Nat) != 0) ∧
    (AsixSigma.triggerselectFast 6 4).testBit AsixSigma.LEDSEL1 = true :=
  C3_amended_trigger_select 6 4 1 (by decide) (by decide) (by decide)

/-- C4: the clock-select disable mask computed at acquisition start is
0xf0ff at 200 MHz (exactly 4 of the 16 channels enabled), 0x00ff at
100 MHz (exactly 8 channels enabled), and 0x0000 (no channel disabled)
for every sample rate <= 50 MHz. -/
theorem C4_clock_disable_mask :
    (AsixSigma.disabledChannels (AsixSigma.SR_MHZ 200) = 0xf0ff ∧
      AsixSigma.enabledChannelCount 0xf0ff = 4) ∧
    (AsixSigma.disabledChannels (AsixSigma.SR_MHZ 100) = 0x00ff ∧
      AsixSigma.enabledChannelCount 0x00ff = 8) ∧
    ∀ rate ≤ AsixSigma.SR_MHZ 50,
      AsixSigma.disabledChannels rate = 0x0000 ∧
      AsixSigma.enabledChannelCount (AsixSigma.disabledChannels rate) = 16 := by
  refine ⟨by decide, by decide, ?_⟩
  intro rate hrate
  have h200 : rate ≠ AsixSigma.SR_MHZ 200 := by
    simp only [AsixSigma.SR_MHZ] at *; omega
  have h100 : rate ≠ AsixSigma.SR_MHZ 100 := by
    simp only [AsixSigma.SR_MHZ] at *; omega
  have hd : AsixSigma.disabledChannels rate = 0x0000 := by
    simp [AsixSigma.disabledChannels, h200, h100]
  exact ⟨hd, by rw [hd]; decide⟩

/-- C4 witness at 1 MHz. -/
theorem C4_clock_disable_mask_witness :
    AsixSigma.disabledChannels 1000000 = 0x0000 ∧
    AsixSigma.enabledChannelCount (AsixSigma.disabledChannels 1000000) = 16 :=
  C4_clock_disable_mask.2.2 1000000 (by norm_num [AsixSigma.SR_MHZ])

/-- C5 counterexample: `config_set` for the capture-ratio key accepts the
out-of-bounds value 101: it returns `SR_OK` (not `SR_ERR_ARG`) and stores
101 into the Device Context, so the claim's configuration-time bounds
check does not exist in the code. -/
theorem C5_counterexample :
    AsixSigma.config_set_captureRatio 101 ⟨200000000, 50⟩
      = (SrStatus.SR_OK, ⟨200000000, 101⟩) := by
  decide

/-- C5 amended: `config_set` for the capture-ratio key performs no bounds
check at all: every requested value is stored into the Device Context
unchanged and `SR_OK` is returned.  Consequently the in-[0,255] guarantee
for the post-trigger register holds only for stored ratios in [0,100];
a stored ratio of 101 already makes the 8-bit register write wrap to 1. -/
theorem C5_amended_no_bounds_check :
    (∀ (value : Nat) (devc : AsixSigma.DevContext),
      AsixSigma.config_set_captureRatio value devc
        = (SrStatus.SR_OK, { devc with captureRatio := value })) ∧
    AsixSigma.postTriggerValue 101 = 1 ∧
    AsixSigma.postTriggerValue 100 = 255 := by
  exact ⟨fun value devc => rfl, by decide, by decide⟩

/-- C9 counterexample: at 25 MHz the serialized clock-select image is
[0x00, 0x01, 0x00, 0x00] — the first byte is the async field (a whole
byte of its own, value 0) and the divider byte (value 1) comes second,
so the claim's field order "divider byte first, async flag inside the
first byte" does not match the code. -/
theorem C9_counterexample :
    AsixSigma.clockBytes (AsixSigma.SR_MHZ 25) = [0, 1, 0, 0] ∧
    AsixSigma.clockFraction (AsixSigma.SR_MHZ 25) = 1 ∧
    (AsixSigma.clockBytes (AsixSigma.SR_MHZ 25)).head?
      ≠ some (AsixSigma.clockFraction (AsixSigma.SR_MHZ 25)) := by
  refine ⟨?_, ?_, ?_⟩ <;> decide

/-- C9 amended: the clock-select register image written at acquisition
start is exactly 4 bytes, in the fixed field order: async byte first
(the async flag occupies a byte of its own, always 0 here), then the
divider byte, then the disable-mask low byte, then the disable-mask high
byte. -/
theorem C9_amended_clock_image : ∀ rate : Nat,
    (AsixSigma.clockBytes rate).length = 4 ∧
    AsixSigma.clockBytes rate
      = [0, AsixSigma.clockFraction rate,
         AsixSigma.disabledChannels rate % 256,
         AsixSigma.disabledChannels rate / 256] := by
  intro rate
  refine ⟨rfl, ?_⟩
  simp only [AsixSigma.clockBytes, AsixSigma.clockAsync]
  have hd : AsixSigma.disabledChannels rate = 0xf0ff ∨
      AsixSigma.disabledChannels rate = 0x00ff ∨
      AsixSigma.disabledChannels rate = 0x0000 := by
    unfold AsixSigma.disabledChannels
    split
    · exact Or.inl rfl
    · split
      · exact Or.inr (Or.inl rfl)
      · exact Or.inr (Or.inr rfl)
  rcases hd with hd | hd | hd <;> rw [hd] <;>
    simp only [List.cons.injEq] <;>
    exact ⟨trivial, trivial, by decide, by decide, trivial⟩

/-- C10: for every capture ratio r in [0,100], the post-trigger register
value is exactly floor(r*255/100) — the 64-bit product and the 8-bit
register truncation never wrap; in particular r=0 gives 0, r=50 gives
127, and r=100 gives 255. -/
theorem C10_post_trigger (r : Nat) (hr : r ≤ 100) :
    AsixSigma.postTriggerValue r = r * 255 / 100 ∧
    AsixSigma.postTriggerValue 0 = 0 ∧
    AsixSigma.postTriggerValue 50 = 127 ∧
    AsixSigma.postTriggerValue 100 = 255 := by
  refine ⟨?_, by decide, by decide, by decide⟩
  unfold AsixSigma.postTriggerValue
  have hpow : (2 : Nat) ^ 64 = 18446744073709551616 := by norm_num
  have hpow8 : (2 : Nat) ^ 8 = 256 := by norm_num
  rw [hpow, hpow8]
  have h2 : r * 255 % 18446744073709551616 = r * 255 :=
    Nat.mod_eq_of_lt (by omega)
  rw [h2]
  omega

/-- C10 witness at r = 50. -/
theorem C10_post_trigger_witness :
    AsixSigma.postTriggerValue 50 = 50 * 255 / 100 :=
  (C10_post_trigger 50 (by norm_num)).1

/-- C2: when the raw wire value of the range query matches no
(quantity, flag, wire-token) entry of the Keithley DMM6500 range table,
`config_get(SR_CONF_RANGE)` still returns `SR_OK` — with the local
`range_str` left uninitialized (modelled as `none`) — instead of failing
with an error; a matching wire value returns its table label.  This
contradicts the spec's explicit-failure requirement and is an
uninitialized-variable slip in the code. -/
theorem C2_range_miss_returns_ok_undefined :
    ScpiDmm.config_get_range ScpiDmm.rangeopts_keithley_dmm6500
        ScpiDmm.SR_MQ_VOLTAGE ScpiDmm.SR_MQFLAG_DC "0.5"
      = (SrStatus.SR_OK, none) ∧
    ScpiDmm.config_get_range ScpiDmm.rangeopts_keithley_dmm6500
        ScpiDmm.SR_MQ_VOLTAGE ScpiDmm.SR_MQFLAG_DC "10"
      = (SrStatus.SR_OK, some "10V") := by
  exact ⟨rfl, rfl⟩

/-- C6 counterexample: the GW-Instek GDM8200A measurement-quantity table
(used by the "GW" "GDM8251A" model, index 2 of `models`) does not have
pairwise-unique (mq, mqflag) pairs: it repeats (CURRENT, DC) for the
wire numbers "03" and "05", among others. -/
theorem C6_counterexample :
    (ScpiDmm.models.get? 2).map (fun m => ScpiDmm.mqPairsUnique m.mqopts)
      = some false ∧
    (ScpiDmm.models.get? 2).map (fun m => (m.vendor, m.model))
      = some ("GW", "GDM8251A") ∧
    (ScpiDmm.mqopts_gwinstek_gdm8200a.map (fun o => (o.mq, o.mqflag)))[2]?
      = (ScpiDmm.mqopts_gwinstek_gdm8200a.map (fun o => (o.mq, o.mqflag)))[4]? := by
  refine ⟨?_, rfl, rfl⟩
  rfl

/-- C6 amended: in every model of the driver's model table except the two
GW-Instek GDM8200A-family entries (which share
`mqopts_gwinstek_gdm8200a`, where (CURRENT,DC), (CURRENT,AC) and
(TEMPERATURE,0) each appear twice for distinct wire numbers), the
(mq, mqflag) pairs of the measurement-quantity option table are pairwise
unique. -/
theorem C6_amended_unique_pairs :
    ScpiDmm.models.all (fun m =>
      ScpiDmm.mqPairsUnique m.mqopts
        || (m.mqopts == ScpiDmm.mqopts_gwinstek_gdm8200a)) = true ∧
    ScpiDmm.mqPairsUnique ScpiDmm.mqopts_gwinstek_gdm8200a = false := by
  exact ⟨rfl, rfl⟩

/-- C7: setting NPLC through `config_set(SR_CONF_ADC_POWERLINE_CYCLES)`
succeeds exactly when the current (quantity, flag) pair has an entry in
the model's NPLC bounds table and the requested value lies within
[min, max] inclusive; a pair with an entry but a value outside the bounds
yields `SR_ERR_DATA`, and a pair absent from the table yields the
distinct `SR_ERR_NA`.  Concretely for the Keithley DMM6500 (min 0.0005,
max 12 for DC voltage): 0.0004 — 0.0001 below the minimum — is rejected
with `SR_ERR_DATA`, while exactly 0.0005 and exactly 12 succeed, and the
pair (VOLTAGE, AC), absent from the table, gives `SR_ERR_NA`. -/
theorem C7_nplc_set_classification :
    (∀ (mq mqflag : Nat) (v : ℚ),
      (ScpiDmm.config_set_nplc ScpiDmm.nplcopts_keithley_dmm6500 mq mqflag v
          = SrStatus.SR_OK ↔
        ∃ o, ScpiDmm.nplcLookup ScpiDmm.nplcopts_keithley_dmm6500 mq mqflag
            = some o ∧ o.nplc_min ≤ v ∧ v ≤ o.nplc_max) ∧
      (ScpiDmm.config_set_nplc ScpiDmm.nplcopts_keithley_dmm6500 mq mqflag v
          = SrStatus.SR_ERR_NA ↔
        ScpiDmm.nplcLookup ScpiDmm.nplcopts_keithley_dmm6500 mq mqflag = none) ∧
      (ScpiDmm.config_set_nplc ScpiDmm.nplcopts_keithley_dmm6500 mq mqflag v
          = SrStatus.SR_ERR_DATA ↔
        ∃ o, ScpiDmm.nplcLookup ScpiDmm.nplcopts_keithley_dmm6500 mq mqflag
            = some o ∧ ¬(o.nplc_min ≤ v ∧ v ≤ o.nplc_max))) ∧
    ScpiDmm.config_set_nplc ScpiDmm.nplcopts_keithley_dmm6500
      ScpiDmm.SR_MQ_VOLTAGE ScpiDmm.SR_MQFLAG_DC (4 / 10000)
      = SrStatus.SR_ERR_DATA ∧
    ScpiDmm.config_set_nplc ScpiDmm.nplcopts_keithley_dmm6500
      ScpiDmm.SR_MQ_VOLTAGE ScpiDmm.SR_MQFLAG_DC (5 / 10000)
      = SrStatus.SR_OK ∧
    ScpiDmm.config_set_nplc ScpiDmm.nplcopts_keithley_dmm6500
      ScpiDmm.SR_MQ_VOLTAGE ScpiDmm.SR_MQFLAG_DC 12
      = SrStatus.SR_OK ∧
    ScpiDmm.config_set_nplc ScpiDmm.nplcopts_keithley_dmm6500
      ScpiDmm.SR_MQ_VOLTAGE ScpiDmm.SR_MQFLAG_AC 1
      = SrStatus.SR_ERR_NA := by
  have cvt : ∀ q : ℚ,
      ScpiDmm.config_set_nplc ScpiDmm.nplcopts_keithley_dmm6500
        ScpiDmm.SR_MQ_VOLTAGE ScpiDmm.SR_MQFLAG_DC q
      = if 5 / 10000 ≤ q ∧ 12 ≥ q then SrStatus.SR_OK
        else SrStatus.SR_ERR_DATA := by
    intro q
    rfl
  refine ⟨?_, ?_, ?_, ?_, ?_⟩
  · intro mq mqflag v
    unfold ScpiDmm.config_set_nplc
    rcases h : ScpiDmm.nplcLookup ScpiDmm.nplcopts_keithley_dmm6500 mq mqflag
      with _ | o
    · simp
    · by_cases hb : o.nplc_min ≤ v ∧ o.nplc_max ≥ v
      · simp [hb, ge_iff_le, and_comm, hb.1, hb.2]
      · have hb' : ¬(o.nplc_min ≤ v ∧ v ≤ o.nplc_max) := fun hc => hb ⟨hc.1, hc.2⟩
        simp [hb, hb']
        exact fun hle => lt_of_not_le fun hc => hb' ⟨hle, hc⟩
  · rw [cvt]
    norm_num
  · rw [cvt]
    norm_num
  · rw [cvt]
    norm_num
  · rfl

/-- C8: for a vendor whose command-set table omits a logical command code,
the operations that would send it skip the step and still succeed:
`dev_acquisition_stop` sends nothing and returns `SR_OK` for the OWON
table (which omits `DMM_CMD_STOP_ACQ`), and the setup-local step of
`probe_device`/`dev_close` sends nothing — with `dev_close` still
succeeding — for the Agilent and Keithley tables (which omit
`DMM_CMD_SETUP_LOCAL`). -/
theorem C8_absent_commands_skipped :
    ScpiDmm.sr_scpi_cmd_get ScpiDmm.cmdset_owon
        ScpiDmm.CmdCode.DMM_CMD_STOP_ACQ = none ∧
    ScpiDmm.dev_acquisition_stop ScpiDmm.cmdset_owon = ([], SrStatus.SR_OK) ∧
    ScpiDmm.sr_scpi_cmd_get ScpiDmm.cmdset_agilent
        ScpiDmm.CmdCode.DMM_CMD_SETUP_LOCAL = none ∧
    ScpiDmm.setup_local_sends ScpiDmm.cmdset_agilent = [] ∧
    ScpiDmm.dev_close ScpiDmm.cmdset_agilent = ([], SrStatus.SR_OK) ∧
    ScpiDmm.sr_scpi_cmd_get ScpiDmm.cmdset_keithley
        ScpiDmm.CmdCode.DMM_CMD_SETUP_LOCAL = none ∧
    ScpiDmm.dev_close ScpiDmm.cmdset_keithley = ([], SrStatus.SR_OK) := by
  exact ⟨rfl, rfl, rfl, rfl, rfl, rfl, rfl⟩
